import Mathlib

/-!
Verification of the KV Store Service (`src/kv-service`).

The service keeps a single in-memory mapping `storage : Dict[str, Any]`
from string keys to JSON-serializable values, and exposes four HTTP
handlers (`store_key`, `update_key`, `get_key`, `delete_key`) that
validate requests, mutate or read the mapping, and produce JSON response
bodies with HTTP status codes.

We embed the JSON value universe, the storage dictionary (as its
observable mapping from keys to optional values), the error-detail
payloads built in `models.py`, and the four handlers of `main.py` as pure
Lean functions from a store to a result carrying the status code, the
response body, and the store after the call.
-/

namespace KVService

/-- JSON-representable data: null, booleans, numbers, strings, ordered
arrays, and objects (ordered lists of string-keyed fields), mirroring the
values `json.dumps` accepts in `models.ValueModel`. -/
inductive Json where
  | null : Json
  | bool (b : Bool) : Json
  | num (n : Int) : Json
  | str (s : String) : Json
  | arr (items : List Json) : Json
  | obj (fields : List (String × Json)) : Json
  deriving Repr

/-- The observable state of the Python dict `storage`: which value, if
any, each string key is currently bound to. -/
def Store : Type := String → Option Json

/-- The empty dict `storage = {}` created at module load. -/
def emptyStore : Store := fun _ => none

/-- Python `storage[key] = value`: bind `key` to `value`, leaving every
other key untouched. -/
def dictSet (s : Store) (key : String) (v : Json) : Store :=
  fun k => if k = key then some v else s k

/-- Python `del storage[key]`: remove the binding of `key`, leaving every
other key untouched. -/
def dictDel (s : Store) (key : String) : Store :=
  fun k => if k = key then none else s k

/-- Python `key in storage`: membership test on the dict. -/
def dictMem (s : Store) (key : String) : Bool :=
  (s key).isSome

/-- The request body model `models.ValueModel`: a pydantic model with a
required string `key` and a required JSON-serializable `value`.  Any
value of type `Json` is JSON-serializable, so the `validate_json_serializable`
field validator accepts every well-typed instance. -/
structure ValueModel where
  key : String
  value : Json
  deriving Repr

/-- Detail payload of `models.KeyNotFoundError` (HTTP 404). -/
def keyNotFoundDetail (key : String) : Json :=
  Json.obj [("success", Json.bool false),
            ("error", Json.str ("Key '" ++ key ++ "' not found"))]

/-- Detail payload of `models.KeyMismatchError` (HTTP 400). -/
def keyMismatchDetail (pathKey bodyKey : String) : Json :=
  Json.obj [("success", Json.bool false),
            ("error", Json.str ("Key in path '" ++ pathKey ++
              "' does not match key in body '" ++ bodyKey ++ "'"))]

/-- Result of one handler call: the HTTP status code, the JSON body (the
returned dict on success, the exception's `detail` payload on error), and
the storage dict after the call. -/
structure HandlerResult where
  status : Nat
  body : Json
  store : Store

/-- Success body returned by both `store_key` and `update_key`. -/
def storedBody : Json :=
  Json.obj [("success", Json.bool true),
            ("message", Json.str "Value stored successfully")]

/-- Success body returned by `delete_key`. -/
def deletedBody : Json :=
  Json.obj [("success", Json.bool true),
            ("message", Json.str "Key deleted successfully")]

/-- Success body returned by `get_key`. -/
def getOkBody (key : String) (v : Json) : Json :=
  Json.obj [("success", Json.bool true),
            ("key", Json.str key),
            ("value", v)]

/-- Handler `POST /keys/\x7bkey\x7d` (`main.store_key`): raise
`KeyMismatchError` when the path key differs from the body key, otherwise
write `storage[key] = data.value` and return 201 with the success body. -/
def store_key (storage : Store) (key : String) (data : ValueModel) : HandlerResult :=
  if key ≠ data.key then
    { status := 400, body := keyMismatchDetail key data.key, store := storage }
  else
    { status := 201, body := storedBody, store := dictSet storage key data.value }

/-- Handler `PUT /keys/\x7bkey\x7d` (`main.update_key`): identical to
`store_key` except the success status code is 200. -/
def update_key (storage : Store) (key : String) (data : ValueModel) : HandlerResult :=
  if key ≠ data.key then
    { status := 400, body := keyMismatchDetail key data.key, store := storage }
  else
    { status := 200, body := storedBody, store := dictSet storage key data.value }

/-- Handler `GET /keys/\x7bkey\x7d` (`main.get_key`): raise
`KeyNotFoundError` when `key not in storage`, otherwise read
`storage[key]` and return 200 with the value; the dict is never
mutated. -/
def get_key (storage : Store) (key : String) : HandlerResult :=
  match storage key with
  | none => { status := 404, body := keyNotFoundDetail key, store := storage }
  | some v => { status := 200, body := getOkBody key v, store := storage }

/-- Handler `DELETE /keys/\x7bkey\x7d` (`main.delete_key`): raise
`KeyNotFoundError` when `key not in storage`, otherwise `del storage[key]`
and return 200 with the deletion body. -/
def delete_key (storage : Store) (key : String) : HandlerResult :=
  if (storage key).isSome then
    { status := 200, body := deletedBody, store := dictDel storage key }
  else
    { status := 404, body := keyNotFoundDetail key, store := storage }

theorem dictSet_same (s : Store) (k : String) (v : Json) :
    dictSet s k v k = some v := by
  simp [dictSet]

theorem dictSet_other (s : Store) (k k' : String) (v : Json) (h : k' ≠ k) :
    dictSet s k v k' = s k' := by
  simp [dictSet, h]

theorem dictDel_same (s : Store) (k : String) :
    dictDel s k k = none := by
  simp [dictDel]

theorem dictDel_other (s : Store) (k k' : String) (h : k' ≠ k) :
    dictDel s k k' = s k' := by
  simp [dictDel, h]

/-- A nested JSON document exercising strings, numbers, booleans, null,
arrays and objects, used to instantiate universally quantified values. -/
def sampleValue : Json :=
  Json.obj [("string", Json.str "hello"),
            ("number", Json.num 42),
            ("boolean", Json.bool true),
            ("null", Json.null),
            ("array", Json.arr [Json.num 1, Json.num 2, Json.num 3]),
            ("nested", Json.obj [("a", Json.num 1), ("b", Json.num 2)])]

/-- Claim C1: for every non-empty key `k` and JSON-representable value
`v`, a Put of `(k, v)` (here `store_key` with matching path and body key)
followed by `get_key k` returns exactly `v`, with structural equality of
the whole JSON document. -/
theorem put_get_roundtrip (s : Store) (k : String) (v : Json) (_hk : k ≠ "") :
    (get_key (store_key s k ⟨k, v⟩).store k).status = 200 ∧
    (get_key (store_key s k ⟨k, v⟩).store k).body = getOkBody k v := by
  simp [store_key, get_key, dictSet]

/-- Witness for C1: the round-trip theorem applied to the key `"k1"` and a
nested document with arrays, objects, booleans, null and numbers. -/
theorem put_get_roundtrip_witness :
    (get_key (store_key emptyStore "k1" ⟨"k1", sampleValue⟩).store "k1").status = 200 ∧
    (get_key (store_key emptyStore "k1" ⟨"k1", sampleValue⟩).store "k1").body =
      getOkBody "k1" sampleValue :=
  put_get_roundtrip emptyStore "k1" sampleValue (by decide)

/-- Claim C2: writing `v1` then `v2` to the same key `k` through either
write handler (`store_key` or `update_key`), then reading `k`, yields
`v2`: the second write replaces the first. -/
theorem overwrite_latest (s : Store) (k : String) (v1 v2 : Json)
    (w1 w2 : Store → String → ValueModel → HandlerResult)
    (h1 : w1 = store_key ∨ w1 = update_key)
    (h2 : w2 = store_key ∨ w2 = update_key) :
    (get_key (w2 (w1 s k ⟨k, v1⟩).store k ⟨k, v2⟩).store k).status = 200 ∧
    (get_key (w2 (w1 s k ⟨k, v1⟩).store k ⟨k, v2⟩).store k).body = getOkBody k v2 := by
  rcases h1 with h1 | h1 <;> rcases h2 with h2 | h2 <;> subst h1 <;> subst h2 <;>
    simp [store_key, update_key, get_key, dictSet]

/-- Witness for C2: POST then PUT on key `"k"` with values `1` then `2`,
followed by a GET that observes `2`. -/
theorem overwrite_latest_witness :
    (get_key (update_key (store_key emptyStore "k" ⟨"k", Json.num 1⟩).store
        "k" ⟨"k", Json.num 2⟩).store "k").status = 200 ∧
    (get_key (update_key (store_key emptyStore "k" ⟨"k", Json.num 1⟩).store
        "k" ⟨"k", Json.num 2⟩).store "k").body = getOkBody "k" (Json.num 2) :=
  overwrite_latest emptyStore "k" (Json.num 1) (Json.num 2)
    store_key update_key (Or.inl rfl) (Or.inr rfl)

/-- Claim C3: when `k` is present, `delete_key` removes it and reports
success; when `k` is absent it signals NotFound (404), leaves the store
unchanged, and a repeated delete signals NotFound again. -/
theorem delete_semantics (s : Store) (k : String) :
    (dictMem s k = true →
      (delete_key s k).status = 200 ∧
      (delete_key s k).body = deletedBody ∧
      dictMem (delete_key s k).store k = false) ∧
    (dictMem s k = false →
      (delete_key s k).status = 404 ∧
      (delete_key s k).body = keyNotFoundDetail k ∧
      (delete_key s k).store = s ∧
      (delete_key (delete_key s k).store k).status = 404) := by
  constructor
  · intro h
    simp only [dictMem] at h
    simp [delete_key, h, dictMem, dictDel]
  · intro h
    simp only [dictMem] at h
    simp [delete_key, h]

/-- Witness for C3: deleting the present key `"a"` succeeds and removes
it; deleting `"a"` from the empty store reports 404 twice without
mutation. -/
theorem delete_semantics_witness :
    ((delete_key (dictSet emptyStore "a" Json.null) "a").status = 200 ∧
     (delete_key (dictSet emptyStore "a" Json.null) "a").body = deletedBody ∧
     dictMem (delete_key (dictSet emptyStore "a" Json.null) "a").store "a" = false) ∧
    ((delete_key emptyStore "a").status = 404 ∧
     (delete_key emptyStore "a").body = keyNotFoundDetail "a" ∧
     (delete_key emptyStore "a").store = emptyStore ∧
     (delete_key (delete_key emptyStore "a").store "a").status = 404) :=
  ⟨(delete_semantics (dictSet emptyStore "a" Json.null) "a").1 (by decide),
   (delete_semantics emptyStore "a").2 (by decide)⟩

/-- Claim C4: a write request whose path key differs from the body key is
rejected with status 400 by both write handlers, the store is identical
before and after, and a subsequent GET on either key still reports 404
when that key was absent before. -/
theorem mismatch_rejected (s : Store) (k : String) (d : ValueModel) (h : k ≠ d.key) :
    (store_key s k d).status = 400 ∧
    (store_key s k d).body = keyMismatchDetail k d.key ∧
    (store_key s k d).store = s ∧
    (update_key s k d).status = 400 ∧
    (update_key s k d).body = keyMismatchDetail k d.key ∧
    (update_key s k d).store = s ∧
    (s k = none → (get_key (store_key s k d).store k).status = 404) ∧
    (s d.key = none → (get_key (update_key s k d).store d.key).status = 404) := by
  refine ⟨?_, ?_, ?_, ?_, ?_, ?_, ?_, ?_⟩ <;>
    simp [store_key, update_key, h] <;> intro hnone <;> simp [get_key, hnone]

/-- Witness for C4: path key `"a"` with body key `"b"` against the empty
store: both writes report 400 and leave the store empty, and both
subsequent GETs report 404. -/
theorem mismatch_rejected_witness :
    (store_key emptyStore "a" ⟨"b", Json.num 1⟩).status = 400 ∧
    (store_key emptyStore "a" ⟨"b", Json.num 1⟩).body = keyMismatchDetail "a" "b" ∧
    (store_key emptyStore "a" ⟨"b", Json.num 1⟩).store = emptyStore ∧
    (update_key emptyStore "a" ⟨"b", Json.num 1⟩).status = 400 ∧
    (update_key emptyStore "a" ⟨"b", Json.num 1⟩).body = keyMismatchDetail "a" "b" ∧
    (update_key emptyStore "a" ⟨"b", Json.num 1⟩).store = emptyStore ∧
    (get_key (store_key emptyStore "a" ⟨"b", Json.num 1⟩).store "a").status = 404 ∧
    (get_key (update_key emptyStore "a" ⟨"b", Json.num 1⟩).store "b").status = 404 := by
  have h := mismatch_rejected emptyStore "a" ⟨"b", Json.num 1⟩ (by decide)
  exact ⟨h.1, h.2.1, h.2.2.1, h.2.2.2.1, h.2.2.2.2.1, h.2.2.2.2.2.1,
    h.2.2.2.2.2.2.1 rfl, h.2.2.2.2.2.2.2 rfl⟩

/-- A JSON document has the flat error shape when it is exactly an object
with a `success` field holding `false` and an `error` field holding some
string. -/
def isFlatError (j : Json) : Prop :=
  ∃ msg : String,
    j = Json.obj [("success", Json.bool false), ("error", Json.str msg)]

/-- Body FastAPI puts on the wire for a raised `HTTPException`: the
exception's `detail` payload nested under a top-level `detail` field.
The service installs no custom exception handler, and the repository's
tests read error bodies as `response.json()["detail"]["success"]` and
`response.json()["detail"]["error"]`, confirming this nesting. -/
def httpErrorBody (detail : Json) : Json :=
  Json.obj [("detail", detail)]

/-- Wire-level response body of a handler call: success bodies are
returned as built, while error statuses (400 and above, raised as
`HTTPException`) are wrapped under a `detail` field by the framework. -/
def wireBody (r : HandlerResult) : Json :=
  if 400 ≤ r.status then httpErrorBody r.body else r.body

/-- Counterexample to C5 as stated: the 404 response for a GET of the
absent key `"a"` is an error response, yet its wire-level body is the
nested object with a `detail` field, not the flat shape with `success`
and `error` at top level. -/
theorem error_body_flat_counterexample :
    (get_key emptyStore "a").status = 404 ∧
    ¬ isFlatError (wireBody (get_key emptyStore "a")) := by
  refine ⟨rfl, ?_⟩
  rintro ⟨msg, h⟩
  simp [wireBody, get_key, emptyStore, httpErrorBody, keyNotFoundDetail] at h

/-- Claim C5 amended: every handler-raised error response carries its
payload nested under a top-level `detail` field, and that payload has
the flat shape with `success` equal to `false` and a string `error`
field; the not-found message is `Key '<key>' not found` and the mismatch
message is `Key in path '<path_key>' does not match key in body
'<body_key>'`. -/
theorem error_detail_shapes (s : Store) (k : String) (d : ValueModel) :
    ((store_key s k d).status = 400 →
      wireBody (store_key s k d) =
        httpErrorBody (Json.obj [("success", Json.bool false),
          ("error", Json.str ("Key in path '" ++ k ++
            "' does not match key in body '" ++ d.key ++ "'"))]) ∧
      isFlatError (store_key s k d).body) ∧
    ((update_key s k d).status = 400 →
      wireBody (update_key s k d) =
        httpErrorBody (Json.obj [("success", Json.bool false),
          ("error", Json.str ("Key in path '" ++ k ++
            "' does not match key in body '" ++ d.key ++ "'"))]) ∧
      isFlatError (update_key s k d).body) ∧
    ((get_key s k).status = 404 →
      wireBody (get_key s k) =
        httpErrorBody (Json.obj [("success", Json.bool false),
          ("error", Json.str ("Key '" ++ k ++ "' not found"))]) ∧
      isFlatError (get_key s k).body) ∧
    ((delete_key s k).status = 404 →
      wireBody (delete_key s k) =
        httpErrorBody (Json.obj [("success", Json.bool false),
          ("error", Json.str ("Key '" ++ k ++ "' not found"))]) ∧
      isFlatError (delete_key s k).body) := by
  refine ⟨?_, ?_, ?_, ?_⟩
  · by_cases h : k = d.key <;>
      simp [store_key, h, wireBody, keyMismatchDetail, isFlatError]
  · by_cases h : k = d.key <;>
      simp [update_key, h, wireBody, keyMismatchDetail, isFlatError]
  · cases h : s k <;>
      simp [get_key, h, wireBody, keyNotFoundDetail, isFlatError]
  · cases h : s k <;>
      simp [delete_key, h, wireBody, keyNotFoundDetail, isFlatError]

/-- Witness for the amended C5: the mismatch response for path key `"a"`
and body key `"b"`, and the not-found responses for key `"a"`, each wrap
a flat payload with the exact message under a `detail` field. -/
theorem error_detail_shapes_witness :
    (wireBody (store_key emptyStore "a" ⟨"b", Json.num 1⟩) =
        httpErrorBody (Json.obj [("success", Json.bool false),
          ("error", Json.str "Key in path 'a' does not match key in body 'b'")]) ∧
      isFlatError (store_key emptyStore "a" ⟨"b", Json.num 1⟩).body) ∧
    (wireBody (get_key emptyStore "a") =
        httpErrorBody (Json.obj [("success", Json.bool false),
          ("error", Json.str "Key 'a' not found")]) ∧
      isFlatError (get_key emptyStore "a").body) ∧
    (wireBody (delete_key emptyStore "a") =
        httpErrorBody (Json.obj [("success", Json.bool false),
          ("error", Json.str "Key 'a' not found")]) ∧
      isFlatError (delete_key emptyStore "a").body) := by
  have h := error_detail_shapes emptyStore "a" ⟨"b", Json.num 1⟩
  exact ⟨h.1 (by decide), h.2.2.1 (by decide), h.2.2.2 (by decide)⟩

/-- Claim C6: for every store, key and body, `store_key` and `update_key`
produce the same store and the same response body; on a matching key the
bodies are the shared success body and the statuses are 201 and 200
respectively. -/
theorem post_put_equivalent (s : Store) (k : String) (d : ValueModel) :
    (store_key s k d).store = (update_key s k d).store ∧
    (store_key s k d).body = (update_key s k d).body ∧
    (k = d.key →
      (store_key s k d).status = 201 ∧
      (update_key s k d).status = 200 ∧
      (store_key s k d).body =
        Json.obj [("success", Json.bool true),
          ("message", Json.str "Value stored successfully")]) := by
  by_cases h : k = d.key <;>
    simp [store_key, update_key, h, storedBody]

/-- Witness for C6: POST and PUT of value `1` under the matching key
`"a"` against the empty store agree on store and body, with statuses 201
and 200. -/
theorem post_put_equivalent_witness :
    (store_key emptyStore "a" ⟨"a", Json.num 1⟩).store =
      (update_key emptyStore "a" ⟨"a", Json.num 1⟩).store ∧
    (store_key emptyStore "a" ⟨"a", Json.num 1⟩).body =
      (update_key emptyStore "a" ⟨"a", Json.num 1⟩).body ∧
    (store_key emptyStore "a" ⟨"a", Json.num 1⟩).status = 201 ∧
    (update_key emptyStore "a" ⟨"a", Json.num 1⟩).status = 200 ∧
    (store_key emptyStore "a" ⟨"a", Json.num 1⟩).body =
      Json.obj [("success", Json.bool true),
        ("message", Json.str "Value stored successfully")] := by
  have h := post_put_equivalent emptyStore "a" ⟨"a", Json.num 1⟩
  exact ⟨h.1, h.2.1, h.2.2 rfl⟩

/-- Claim C7: storing the JSON value null under `k` and then reading `k`
returns a 200 success response carrying null, and `k` is a member of the
store: a key bound to null is observably distinct from an absent key. -/
theorem null_value_distinct_from_absent (s : Store) (k : String) :
    (get_key (store_key s k ⟨k, Json.null⟩).store k).status = 200 ∧
    (get_key (store_key s k ⟨k, Json.null⟩).store k).body = getOkBody k Json.null ∧
    dictMem (store_key s k ⟨k, Json.null⟩).store k = true := by
  simp [store_key, get_key, dictSet, dictMem]

/-- Claim C8: `get_key` returns the store unchanged whether the key is
present or absent, and `store_key`, `update_key` and `delete_key` leave
the binding of every key other than the addressed one unchanged. -/
theorem handlers_frame (s : Store) (k k' : String) (d : ValueModel) (h : k' ≠ k) :
    (get_key s k).store = s ∧
    (store_key s k d).store k' = s k' ∧
    (update_key s k d).store k' = s k' ∧
    (delete_key s k).store k' = s k' := by
  refine ⟨?_, ?_, ?_, ?_⟩
  · cases hv : s k <;> simp [get_key, hv]
  · by_cases he : k = d.key
    · subst he; simp [store_key, dictSet, h]
    · simp [store_key, he]
  · by_cases he : k = d.key
    · subst he; simp [update_key, dictSet, h]
    · simp [update_key, he]
  · cases hv : s k <;> simp [delete_key, hv, dictDel, h]

/-- Witness for C8: with `"b"` bound to `7`, a GET, POST, PUT and DELETE
addressed to `"a"` all leave the binding of `"b"` intact. -/
theorem handlers_frame_witness :
    (get_key (dictSet emptyStore "b" (Json.num 7)) "a").store =
      dictSet emptyStore "b" (Json.num 7) ∧
    (store_key (dictSet emptyStore "b" (Json.num 7)) "a" ⟨"a", Json.num 1⟩).store "b" =
      dictSet emptyStore "b" (Json.num 7) "b" ∧
    (update_key (dictSet emptyStore "b" (Json.num 7)) "a" ⟨"a", Json.num 1⟩).store "b" =
      dictSet emptyStore "b" (Json.num 7) "b" ∧
    (delete_key (dictSet emptyStore "b" (Json.num 7)) "a").store "b" =
      dictSet emptyStore "b" (Json.num 7) "b" :=
  handlers_frame (dictSet emptyStore "b" (Json.num 7)) "a" "b" ⟨"a", Json.num 1⟩ (by decide)

/-- Claim C10: no handler enforces the non-empty-key precondition of the
spec: a POST with the empty path key and matching empty body key succeeds
with 201 and creates the binding, a GET on the empty key returns the
value with 200, and a DELETE on it succeeds with 200 and removes it. -/
theorem empty_key_not_rejected (s : Store) (v : Json) :
    (store_key s "" ⟨"", v⟩).status = 201 ∧
    (store_key s "" ⟨"", v⟩).store "" = some v ∧
    (get_key (store_key s "" ⟨"", v⟩).store "").status = 200 ∧
    (get_key (store_key s "" ⟨"", v⟩).store "").body = getOkBody "" v ∧
    (delete_key (store_key s "" ⟨"", v⟩).store "").status = 200 ∧
    (delete_key (store_key s "" ⟨"", v⟩).store "").store "" = none := by
  simp [store_key, get_key, delete_key, dictSet, dictDel]

end KVService
